import Mathlib

/-!
Shallow embedding of `main.py` of the Ryanair price-watch pipeline:
snapshot comparison, history accumulation, run counter, heatmap styling,
calendar/trend rendering and the dashboard assembler, together with
theorems settling the specification claims.

Python `datetime.date` values are embedded as `Date` (proleptic Gregorian
calendar); `datetime` values as `Timestamp` (a date plus a minute of day).
`calendar.Calendar().monthdatescalendar` (Monday-first weeks, overflow days
of adjacent months included) is reimplemented below via ordinal-day
arithmetic.
-/

/-- A calendar date (proleptic Gregorian), as Python's `datetime.date`. -/
structure Date where
  year : Nat
  month : Nat
  day : Nat
deriving DecidableEq, Repr

/-- A timestamp: calendar date plus minute of day (Python `datetime`). -/
structure Timestamp where
  date : Date
  minuteOfDay : Nat
deriving DecidableEq, Repr

def isLeap (y : Nat) : Bool :=
  y % 4 == 0 && (y % 100 != 0 || y % 400 == 0)

def daysInMonth (y m : Nat) : Nat :=
  if m = 2 then (if isLeap y then 29 else 28)
  else if m = 4 ∨ m = 6 ∨ m = 9 ∨ m = 11 then 30
  else 31

/-- Days since 0000-03-01 of the proleptic Gregorian calendar
(Hinnant's civil-to-days algorithm, shifted so all values are `Nat`). -/
def Date.ordinal (d : Date) : Nat :=
  let y := if d.month ≤ 2 then d.year - 1 else d.year
  let m := if d.month ≤ 2 then d.month + 9 else d.month - 3
  365 * y + y / 4 - y / 100 + y / 400 + (153 * m + 2) / 5 + d.day - 1

/-- Inverse of `Date.ordinal` (Hinnant's days-to-civil algorithm). -/
def Date.ofOrdinal (n : Nat) : Date :=
  let era := n / 146097
  let doe := n % 146097
  let yoe := (doe - doe / 1460 + doe / 36524 - doe / 146096) / 365
  let doy := doe - (365 * yoe + yoe / 4 - yoe / 100)
  let mp := (5 * doy + 2) / 153
  let d := doy - (153 * mp + 2) / 5 + 1
  let m := if mp < 10 then mp + 3 else mp - 9
  let y := yoe + era * 400 + (if m ≤ 2 then 1 else 0)
  ⟨y, m, d⟩

/-- Day of week of an ordinal day, Monday = 0 .. Sunday = 6
(as Python's `date.weekday()`). -/
def dowOfOrdinal (n : Nat) : Nat := (n + 2) % 7

def Date.weekday (d : Date) : Nat := dowOfOrdinal d.ordinal

/-- `calendar.Calendar().monthdatescalendar(y, m)`: the weeks of month
`m` of year `y` as full Monday-to-Sunday weeks of dates, including the
overflow days of the adjacent months. -/
def monthdatescalendar (y m : Nat) : List (List Date) :=
  let first := (Date.mk y m 1).ordinal
  let start := first - dowOfOrdinal first
  let last := (Date.mk y m (daysInMonth y m)).ordinal
  let stop := last + (6 - dowOfOrdinal last)
  let nweeks := (stop + 1 - start) / 7
  (List.range nweeks).map fun w =>
    (List.range 7).map fun i => Date.ofOrdinal (start + 7 * w + i)

/-- The twelve (year, month) pairs of the dashboard's rolling window,
as computed in `create_final_html_dashboard`:
`today.year + (today.month + i - 1) // 12, (today.month + i - 1) % 12 + 1`
for `i` in `range(12)`. -/
def monthsWindow (today : Date) : List (Nat × Nat) :=
  (List.range 12).map fun i =>
    (today.year + (today.month + i - 1) / 12, (today.month + i - 1) % 12 + 1)

/-- An `Observation`: one row of a Snapshot, with columns
`From`, `To`, `DateTime`, `Price` as built in `get_flight_prices`. -/
structure Obs where
  From : String
  To : String
  DateTime : Timestamp
  Price : ℚ
deriving DecidableEq, Repr

/-- A row of the price-history CSV: columns
`CheckTime`, `FlightDateTime`, `From`, `To`, `Price`. `CheckTime` is the
UTC instant of the run, kept abstract as a `Nat` (it is only written,
compared and sorted). -/
structure HistRow where
  CheckTime : Nat
  FlightDateTime : Timestamp
  From : String
  To : String
  Price : ℚ
deriving DecidableEq, Repr

/-- A row of `comparison_df` after the left merge in
`check_flights_and_update`: a current row plus the `Previous Price`
column, which is NaN (`none`) when the previous snapshot has no row
with the same (`DateStr`, `From`, `To`) key. -/
structure CompRow where
  obs : Obs
  prevPrice : Option ℚ
deriving DecidableEq, Repr

/-- The (`DateStr`, `From`, `To`) merge key of a snapshot row: the
calendar date of the flight (what `strftime('%Y-%m-%d')` exposes) and
the route. -/
def mergeKey (o : Obs) : Date × String × String := (o.DateTime.date, o.From, o.To)

/-- The left merge
`pd.merge(current, previous[['DateStr','From','To','Price']], on=['DateStr','From','To'], how='left')`:
every current row appears; a current row with no key match in `previous`
carries `none`, and one output row is produced per matching previous row. -/
def merge_left (current previous : List Obs) : List CompRow :=
  current.flatMap fun c =>
    let ms := previous.filter fun p => mergeKey p = mergeKey c
    if ms.isEmpty then [⟨c, none⟩]
    else ms.map fun p => ⟨c, some p.Price⟩

/-- The row filter of `generate_price_change_html`:
`price_changed = Price != Previous Price` (pandas `NaN != x` is true),
`new_flights = Previous Price.isna()`, kept rows `price_changed | new_flights`. -/
def changedRows (comparison : List CompRow) : List CompRow :=
  comparison.filter fun r => (r.prevPrice != some r.obs.Price) || (r.prevPrice == none)

/-- `generate_price_change_html`: `None` when no row changed, otherwise
the kept rows (rendered to an HTML table by the code; the table contents
are exactly these rows). -/
def generate_price_change_html (comparison : List CompRow) : Option (List CompRow) :=
  let kept := changedRows comparison
  if kept.isEmpty then none else some kept

/-- An sRGB color on the 0–255 scale, with exact rational channels
(matplotlib works on the equivalent 0–1 float scale). -/
structure Color where
  r : ℚ
  g : ℚ
  b : ℚ
deriving DecidableEq, Repr

def lightgreen : Color := ⟨144, 238, 144⟩
def yellow : Color := ⟨255, 255, 0⟩
def orange : Color := ⟨255, 165, 0⟩
def lightcoral : Color := ⟨240, 128, 128⟩

def Color.lerp (c d : Color) (s : ℚ) : Color :=
  ⟨c.r + (d.r - c.r) * s, c.g + (d.g - c.g) * s, c.b + (d.b - c.b) * s⟩

/-- `LinearSegmentedColormap.from_list("", ["lightgreen", "yellow", "orange"])`
evaluated at `t ∈ [0,1]`: piecewise-linear with `yellow` at `t = 1/2`. -/
def rampColor (t : ℚ) : Color :=
  if t ≤ 1/2 then Color.lerp lightgreen yellow (2 * t)
  else Color.lerp yellow orange (2 * t - 1)

def PRICE_HEATMAP_min_price : ℚ := 10
def PRICE_HEATMAP_max_price : ℚ := 75

/-- `price_heatmap_styler`, as the color it selects: cheap fixed color at
`price <= min_price`, expensive fixed color at `price > max_price`, and
the 3-stop ramp at `norm_price = (price - min_p) / (max_p - min_p)` in
between.  (The code wraps this color into a CSS `background-color`
declaration; see `price_heatmap_styler_css`.) -/
def price_heatmap_styler (price : ℚ) : Color :=
  if price ≤ PRICE_HEATMAP_min_price then lightgreen
  else if PRICE_HEATMAP_max_price < price then lightcoral
  else rampColor ((price - PRICE_HEATMAP_min_price) /
    (PRICE_HEATMAP_max_price - PRICE_HEATMAP_min_price))

/-- Perceived "heat" of a color along the lightgreen→yellow→orange→lightcoral
scale: red minus green (strictly increasing along the ramp). -/
def Color.heat (c : Color) : ℚ := c.r - c.g

def hexDigitChar (n : Nat) : Char :=
  "0123456789abcdef".data.getD n '0'

/-- Nearest integer of a rational (matplotlib `to_hex` rounds each channel). -/
def rnd (q : ℚ) : Nat := (⌊q + 1/2⌋).toNat

def hex2 (n : Nat) : String := String.mk [hexDigitChar (n / 16), hexDigitChar (n % 16)]

/-- `mcolors.to_hex` of a color. -/
def toHexColor (c : Color) : String :=
  "#" ++ hex2 (rnd c.r) ++ hex2 (rnd c.g) ++ hex2 (rnd c.b)

/-- The CSS string returned by `price_heatmap_styler` in the code: the two
fixed branches return CSS color names, the ramp branch a hex value. -/
def price_heatmap_styler_css (price : ℚ) : String :=
  "background-color: " ++
    (if price ≤ PRICE_HEATMAP_min_price then "lightgreen"
     else if PRICE_HEATMAP_max_price < price then "lightcoral"
     else toHexColor (price_heatmap_styler price))

def pad2 (n : Nat) : String := if n < 10 then "0" ++ toString n else toString n

/-- `strftime('%Y-%m-%d')`. -/
def fmtDate (d : Date) : String :=
  toString d.year ++ "-" ++ pad2 d.month ++ "-" ++ pad2 d.day

/-- The `Flight` series label built in `generate_and_upload_graph`:
`From + ' to ' + To + ' on ' + FlightDateTime.strftime('%Y-%m-%d')` —
note it contains only the *calendar date* of the flight. -/
def flightLabel (r : HistRow) : String :=
  r.From ++ " to " ++ r.To ++ " on " ++ fmtDate r.FlightDateTime.date

/-- Lexicographic comparison of character lists by code point. -/
def charsLe : List Char → List Char → Bool
  | [], _ => true
  | _ :: _, [] => false
  | a :: as, b :: bs =>
    if a.toNat < b.toNat then true
    else if b.toNat < a.toNat then false
    else charsLe as bs

/-- Lexicographic string order by code point (Python's `str` order). -/
def strLe (a b : String) : Bool := charsLe a.data b.data

/-- Insertion of a string into a sorted list (helper for the sorted
group-key order of `groupby`). -/
def sortedInsert (a : String) : List String → List String
  | [] => [a]
  | b :: bs => if strLe a b then a :: b :: bs else b :: sortedInsert a bs

/-- Insertion sort of strings, modelling the sorted key order in which
pandas `groupby` iterates its groups. -/
def sortStrings (l : List String) : List String := l.foldr sortedInsert []

/-- The series plotted by `generate_and_upload_graph`:
`history_df.groupby('Flight')` iterates groups in sorted label order with
each group's rows in their original dataframe order; groups with
`len(group) > 1` are plotted with points `(CheckTime, Price)` taken in
that row order (the code does not sort within a group). -/
def generate_graph_series (h : List HistRow) : List (String × List (Nat × ℚ)) :=
  let labels := sortStrings (h.map flightLabel).dedup
  labels.filterMap fun l =>
    let g := h.filter fun r => flightLabel r = l
    if 1 < g.length then some (l, g.map fun r => (r.CheckTime, r.Price)) else none

/-- Whether a point list is in non-decreasing order of its first
component (check-time order). -/
def sortedByFst : List (Nat × ℚ) → Bool
  | [] => true
  | [_] => true
  | p :: q :: rest => (p.1 ≤ q.1) && sortedByFst (q :: rest)

/-- The return value of `generate_and_upload_graph`: `False` iff the
history has fewer than 2 rows in total; otherwise the chart (with the
series of `generate_graph_series`, possibly none at all) is rendered,
uploaded, and `True` is returned. -/
def generate_and_upload_graph (h : List HistRow) : Bool :=
  !(h.isEmpty || h.length < 2)

/-- The module-level names bound by the import statements at the top of
`main.py` (`os`, `json`, `from datetime import ...`, `pandas as pd`, `io`,
`matplotlib`, `pyplot as plt`, `colors as mcolors`, `Ryanair`, `calendar`,
`SendGridAPIClient`, `Mail`, `ZoneInfo`, `google.cloud storage`).
The `time` module is never imported. -/
def mainModuleImports : List String :=
  ["os", "json", "datetime", "date", "timedelta", "timezone", "pd", "io",
   "matplotlib", "plt", "mcolors", "Ryanair", "calendar",
   "SendGridAPIClient", "Mail", "ZoneInfo", "storage"]

/-- A Python runtime error surfaced by the embedding. -/
inductive PyError where
  | nameError (name : String)
deriving DecidableEq, Repr

/-- `calendar.month_name[m]`. -/
def month_name (m : Nat) : String :=
  ["", "January", "February", "March", "April", "May", "June", "July",
   "August", "September", "October", "November", "December"].getD m ""

/-- The booking deep link built per flight in `create_final_html_dashboard`. -/
def bookingUrl (f : Obs) : String :=
  "https://www.ryanair.com/ie/en/trip/flights/select?adults=1&dateOut=" ++
    fmtDate f.DateTime.date ++ "&originIata=" ++ f.From ++
    "&destinationIata=" ++ f.To ++ "&isReturn=false"

/-- `€{Price:.0f}`: the price rounded to a whole number of euro. -/
def priceText (p : ℚ) : String := "€" ++ toString (rnd p)

/-- One `<tr>` of a day's inner table for one flight; the date number is
shown only on the first flight row of the cell. -/
def flightRowHtml (day_date : Date) (is_first : Bool) (flight : Obs) : String :=
  "<tr><td class='date-cell'>" ++ (if is_first then toString day_date.day else "") ++
    "</td><td class='route-cell'>" ++ flight.From ++ "→" ++ flight.To ++
    ":</td><td class='price-cell'><a href='" ++ bookingUrl flight ++
    "' target='_blank' class='booking-link'><b>B</b></a><span class='flight-price' style='" ++
    price_heatmap_styler_css flight.Price ++ "'>" ++ priceText flight.Price ++
    "</span></td></tr>"

/-- One `<td>` cell of the compact calendar for date `day_date` of the
month block `(current_month)`: the code looks `day_date` up in
`flights_by_date` (grouping of the whole snapshot by flight calendar
date) whether or not `day_date` belongs to the current month; overflow
days only get the `other-month` CSS class. -/
def calendarCellHtml (all_flights : List Obs) (current_month : Nat) (day_date : Date) : String :=
  let flights := all_flights.filter fun f => f.DateTime.date = day_date
  let inner :=
    if flights.isEmpty then
      "<tr><td class='date-cell'>" ++ toString day_date.day ++ "</td></tr>"
    else
      String.join (flights.mapIdx fun i f => flightRowHtml day_date (i == 0) f)
  "<td class='" ++ (if day_date.month ≠ current_month then "other-month" else "") ++
    "'>" ++ "<table class='day-table'>" ++ inner ++ "</table>" ++ "</td>"

/-- One month block of the dashboard calendar. -/
def monthBlockHtml (all_flights : List Obs) (current_year current_month : Nat) : String :=
  "<div class='month-block'>" ++
    "<h4>" ++ month_name current_month ++ " " ++ toString current_year ++ "</h4>" ++
    "<table class='compact-calendar'><thead><tr>" ++
    "<th>M</th><th>T</th><th>W</th><th>T</th><th>F</th><th>S</th><th>S</th>" ++
    "</tr></thead><tbody>" ++
    String.join ((monthdatescalendar current_year current_month).map fun week =>
      "<tr>" ++ String.join (week.map fun day_date =>
        calendarCellHtml all_flights current_month day_date) ++ "</tr>") ++
    "</tbody></table></div>"

/-- The `calendar_html` variable of `create_final_html_dashboard`. -/
def calendarHtml (all_flights : List Obs) (today : Date) : String :=
  if all_flights.isEmpty then
    "<h2>No flights were found during the last check.</h2>"
  else
    String.join ((monthsWindow today).map fun ym =>
      monthBlockHtml all_flights ym.1 ym.2)

/-- The fixed `<style>`/head/body scaffolding of the final page, split
around the three interpolated holes (`calendar_html`, `graph_html`,
and the last-updated timestamp). -/
def pageHead : String :=
  "\n    <!DOCTYPE html><html lang=\"en\"><head><meta charset=\"UTF-8\"><meta name=\"viewport\" content=\"width=device-width, initial-scale=1.0\">\n    <title>Ryanair Flight Dashboard</title><style>body\x7bfont-family:Arial,sans-serif;margin:20px\x7dh1,.footer\x7btext-align:center\x7d.calendar-grid-container\x7bdisplay:flex;flex-wrap:wrap;justify-content:space-around\x7d.month-block\x7bwidth:32%;min-width:300px;margin-bottom:15px\x7d.month-block h4\x7btext-align:center;margin:5px 0;font-size:14px\x7d.compact-calendar\x7bwidth:100%;border-collapse:collapse\x7d.compact-calendar th\x7bbackground-color:#f7f7f7;text-align:center;font-size:10px;border:1px solid #e0e0e0;padding:3px\x7d.compact-calendar td\x7bborder:1px solid #e0e0e0;padding:2px;vertical-align:top;text-align:left;height:auto\x7d.other-month\x7bbackground-color:#fcfcfc\x7d.day-table\x7bwidth:100%;border-collapse:collapse\x7d.day-table td\x7bborder:none;padding:1px 0;font-size:9px;white-space:nowrap\x7d.day-table .date-cell\x7bwidth:15px;font-weight:bold\x7d.day-table .route-cell\x7bpadding-left:3px\x7d.day-table .price-cell\x7btext-align:right;width:50px\x7d.booking-link\x7btext-decoration:none;color:#007bff;font-size:10px;margin-right:3px\x7d.booking-link:hover\x7btext-decoration:underline\x7d.flight-price\x7bpadding:1px 3px;border-radius:3px;color:#000;font-weight:bold\x7d</style>\n    </head><body><h1>Ryanair Live Flight Dashboard</h1><div>"

def pageMid : String := "</div><hr><div>"

def pageFootPre : String :=
  "</div>\n    <p style=\"text-align:center;font-size:12px;color:#888;\">Last updated: "

def pageFootPost : String := "</p></body></html>\n    "

/-- The final page f-string: scaffolding with the `calendar_html`,
`graph_html` and last-updated holes filled in. -/
def pageOf (calendar_html graph_html lastUpdated : String) : String :=
  pageHead ++ calendar_html ++ pageMid ++ graph_html ++
    pageFootPre ++ lastUpdated ++ pageFootPost

/-- `create_final_html_dashboard(all_flights_df, graph_available)`.
`today` embeds the `date.today()` read inside the function; `lastUpdated`
the `datetime.now(ZoneInfo('Europe/Dublin')).strftime(...)` footer text.
When `graph_available` is true the graph branch evaluates
`f"...?t=\x7bint(time.time())\x7d"`; the module-level name `time` is not in
`mainModuleImports`, so the call raises `NameError` instead of returning
a page. -/
def create_final_html_dashboard (all_flights : List Obs) (graph_available : Bool)
    (today : Date) (lastUpdated : String) : Except PyError String :=
  let calendar_html := calendarHtml all_flights today
  if graph_available then Except.error (PyError.nameError "time")
  else
    let graph_html := "<h2>Price History Graph</h2>" ++
      "<p>Graph will be generated once enough historical data is collected.</p>"
    Except.ok (pageOf calendar_html graph_html lastUpdated)

/-- The observable outcome of one invocation of `check_flights_and_update`. -/
structure RunOutput where
  /-- The rows of the change table, when the comparison was performed
  (`current` and `previous` both non-empty) — `generate_price_change_html`'s
  table contents, `none` when it returned `None` or was never called. -/
  changeSet : Option (List CompRow)
  /-- Whether the price-change alert email was sent. -/
  alertSent : Bool
  /-- The content of `prices.json` after the run. -/
  savedPrices : List Obs
  /-- The content of `price_history.csv` after the run. -/
  newHistory : List HistRow
  /-- Whether the periodic full-price summary email was sent. -/
  summarySent : Bool
  /-- The integer persisted to `run_count.txt`. -/
  savedRunCount : Nat
  /-- The return value of `generate_and_upload_graph`. -/
  graphAvailable : Bool
  /-- The final dashboard document (or the error aborting its creation). -/
  dashboard : Except PyError String
deriving Repr

/-- The history row logged for one current observation:
`df_to_log[['CheckTime','FlightDateTime','From','To','Price']]` with
`CheckTime` the run's capture instant. -/
def toHistRow (checkTime : Nat) (o : Obs) : HistRow :=
  ⟨checkTime, o.DateTime, o.From, o.To, o.Price⟩

/-- One run of `check_flights_and_update`, as a function of the prior
durable state (`previous` = `prices.json`, `history` = `price_history.csv`,
`storedCount` = `run_count.txt`, `none` when missing/unreadable), the
fetched snapshot `current`, the run's check time, and the two clock reads
of the dashboard step (`today`, `lastUpdated`). -/
def check_flights_and_update (previous : List Obs) (history : List HistRow)
    (storedCount : Option Nat) (current : List Obs) (checkTime : Nat)
    (today : Date) (lastUpdated : String) : RunOutput :=
  let changeSet :=
    if current.isEmpty || previous.isEmpty then none
    else generate_price_change_html (merge_left current previous)
  let alertSent := changeSet.isSome
  let savedPrices := if current.isEmpty then previous else current
  let newHistory :=
    if current.isEmpty then history
    else history ++ current.map (toHistRow checkTime)
  let run_count := storedCount.getD 0 + 1
  let summarySent := run_count % 6 == 0
  let savedRunCount := if run_count % 6 == 0 then 0 else run_count
  let graphAvailable := generate_and_upload_graph newHistory
  { changeSet := changeSet
    alertSent := alertSent
    savedPrices := savedPrices
    newHistory := newHistory
    summarySent := summarySent
    savedRunCount := savedRunCount
    graphAvailable := graphAvailable
    dashboard := create_final_html_dashboard current graphAvailable today lastUpdated }

/-- Per-run inputs of the pipeline other than the counter (snapshots,
history, clocks), used to iterate runs. -/
structure RunInput where
  previous : List Obs
  history : List HistRow
  current : List Obs
  checkTime : Nat
  today : Date
  lastUpdated : String

def RunInput.run (i : RunInput) (storedCount : Option Nat) : RunOutput :=
  check_flights_and_update i.previous i.history storedCount i.current
    i.checkTime i.today i.lastUpdated

/-- The counter persisted after `k` consecutive successful runs starting
from a stored counter of 0, with arbitrary per-run inputs. -/
def counterAfter (inp : Nat → RunInput) : Nat → Nat
  | 0 => 0
  | k + 1 => ((inp (k + 1)).run (some (counterAfter inp k))).savedRunCount

/-- Whether the summary fired on run `k` (runs numbered from 1) of the
iteration of `counterAfter`. -/
def summaryFiredAt (inp : Nat → RunInput) (k : Nat) : Bool :=
  ((inp k).run (some (counterAfter inp (k - 1)))).summarySent

/-- The calendar grid of the dashboard, cell by cell: for each month block
`(year, month)` of the 12-month window and each date `d` of its
`monthdatescalendar` grid, the flights the code lists in that cell —
`flights_by_date[d]`, looked up whether or not `d` belongs to the block's
month. -/
def calendarCells (today : Date) (all_flights : List Obs) :
    List (Nat × Nat × Date × List Obs) :=
  (monthsWindow today).flatMap fun ym =>
    (monthdatescalendar ym.1 ym.2).flatMap fun week =>
      week.map fun d => (ym.1, ym.2, d, all_flights.filter fun f => f.DateTime.date = d)

/-! ### Concrete fixtures used by counterexamples and witnesses -/

/-- A run date: Monday 2026-10-12. -/
def today0 : Date := ⟨2026, 10, 12⟩

/-- A flight on Sunday 2026-11-01 — a date shown both in its own November
block and as an overflow day of the October block's last week. -/
def obsNov1 : Obs := ⟨"DUB", "VIE", ⟨⟨2026, 11, 1⟩, 480⟩, 25⟩

/-- A previous-snapshot row with the same (date, route) key as `obsNov1`
but a different departure time and price. -/
def prevNov1 : Obs := ⟨"DUB", "VIE", ⟨⟨2026, 11, 1⟩, 500⟩, 30⟩

/-- History row: morning flight, checked at (abstract) time 10. -/
def histRowA : HistRow := ⟨10, ⟨⟨2026, 12, 5⟩, 480⟩, "DUB", "VIE", 100⟩

/-- History row: same route and calendar date as `histRowA` but a different
departure time (a different flight timestamp), checked earlier, at time 5. -/
def histRowB : HistRow := ⟨5, ⟨⟨2026, 12, 5⟩, 1200⟩, "DUB", "VIE", 120⟩

/-- History row: a different route, so its series shares no label with
`histRowA`'s. -/
def histRowC : HistRow := ⟨10, ⟨⟨2026, 12, 5⟩, 480⟩, "DUB", "BTS", 60⟩

/-! ### Claim theorems -/

/-- Helper: the counter persisted after `k` runs from 0 is `k mod 6`. -/
lemma counterAfter_eq_mod (inp : Nat → RunInput) (k : Nat) :
    counterAfter inp k = k % 6 := by
  induction k with
  | zero => rfl
  | succ n ih =>
    show ((inp (n + 1)).run (some (counterAfter inp n))).savedRunCount = (n + 1) % 6
    rw [ih]
    simp only [RunInput.run, check_flights_and_update, Option.getD_some, beq_iff_eq]
    split <;> omega

/-- C2 counterexample: on a first run (`prices.json` empty/missing) with a
non-empty current snapshot, `check_flights_and_update` skips the comparison
entirely (the `if not previous_prices_df.empty` guard), so no change set is
produced at all — in particular no change set of size `len(current) = 1`
with every row new — and no alert email is sent; the claim asserts a
change set equal to `current` in size with every entry flagged new. -/
theorem C2_first_run_counterexample :
    (check_flights_and_update [] [] none [obsNov1] 0 today0 "x").changeSet = none ∧
    (¬ ∃ cs, (check_flights_and_update [] [] none [obsNov1] 0 today0 "x").changeSet = some cs ∧
        cs.length = 1 ∧ ∀ r ∈ cs, r.prevPrice = none) ∧
    (check_flights_and_update [] [] none [obsNov1] 0 today0 "x").alertSent = false := by
  refine ⟨rfl, ?_, rfl⟩
  rintro ⟨cs, hcs, -⟩
  exact Option.noConfusion ((rfl : (check_flights_and_update [] [] none [obsNov1] 0 today0 "x").changeSet = none) ▸ hcs)

/-- C2 (amended): if the previous snapshot is empty (e.g. a first run) the
pipeline performs no comparison — no change set is produced and no change
alert is sent; and likewise if the current snapshot is empty, the change
set is absent and no alert is sent, regardless of history. -/
theorem C2_no_comparison_when_empty (previous : List Obs) (history : List HistRow)
    (storedCount : Option Nat) (current : List Obs) (t : Nat) (td : Date) (lu : String)
    (h : previous = [] ∨ current = []) :
    (check_flights_and_update previous history storedCount current t td lu).changeSet = none ∧
    (check_flights_and_update previous history storedCount current t td lu).alertSent = false := by
  rcases h with h | h <;> subst h <;> simp [check_flights_and_update]

theorem C2_no_comparison_when_empty_witness :
    (check_flights_and_update [] [histRowA] (some 3) [obsNov1] 7 today0 "w").changeSet = none ∧
    (check_flights_and_update [] [histRowA] (some 3) [obsNov1] 7 today0 "w").alertSent = false :=
  C2_no_comparison_when_empty [] [histRowA] (some 3) [obsNov1] 7 today0 "w" (Or.inl rfl)

/-- C3: for every run, the persisted history is exactly the prior history
with one row per current observation appended — `m + n` rows, the `m`
prior rows unmodified and in order as a prefix, and each appended row
carrying the run's check time and the observation's full flight
timestamp, route and price (`toHistRow`). -/
theorem C3_history_append (previous : List Obs) (history : List HistRow)
    (storedCount : Option Nat) (current : List Obs) (t : Nat) (td : Date) (lu : String) :
    (check_flights_and_update previous history storedCount current t td lu).newHistory
      = history ++ current.map (toHistRow t) ∧
    (check_flights_and_update previous history storedCount current t td lu).newHistory.length
      = history.length + current.length ∧
    (check_flights_and_update previous history storedCount current t td lu).newHistory.take
        history.length = history := by
  have h : (check_flights_and_update previous history storedCount current t td lu).newHistory
      = history ++ current.map (toHistRow t) := by
    cases current <;> simp [check_flights_and_update]
  refine ⟨h, ?_, ?_⟩
  · rw [h]; simp
  · rw [h, List.take_left]

/-- C4: the run-counter state machine of `check_flights_and_update`:
the transition is `nextCount = previousCount + 1`, the summary fires and
`0` is persisted exactly when `nextCount mod 6 = 0` (else `nextCount` is
persisted); consequently after `k` consecutive runs from 0 the persisted
counter is `k mod 6` and the summary fires on run `k` iff `k mod 6 = 0`
(`k > 0`); and a missing stored counter behaves exactly like a stored 0. -/
theorem C4_run_counter :
    (∀ (previous : List Obs) (history : List HistRow) (storedCount : Option Nat)
        (current : List Obs) (t : Nat) (td : Date) (lu : String),
      (check_flights_and_update previous history storedCount current t td lu).savedRunCount
        = (if (storedCount.getD 0 + 1) % 6 = 0 then 0 else storedCount.getD 0 + 1) ∧
      ((check_flights_and_update previous history storedCount current t td lu).summarySent
        = true ↔ (storedCount.getD 0 + 1) % 6 = 0)) ∧
    (∀ (inp : Nat → RunInput) (k : Nat), counterAfter inp k = k % 6) ∧
    (∀ (inp : Nat → RunInput) (k : Nat), 0 < k →
      (summaryFiredAt inp k = true ↔ k % 6 = 0)) ∧
    (∀ (previous : List Obs) (history : List HistRow) (current : List Obs)
        (t : Nat) (td : Date) (lu : String),
      (check_flights_and_update previous history none current t td lu).savedRunCount
        = (check_flights_and_update previous history (some 0) current t td lu).savedRunCount ∧
      (check_flights_and_update previous history none current t td lu).summarySent
        = (check_flights_and_update previous history (some 0) current t td lu).summarySent) := by
  refine ⟨?_, counterAfter_eq_mod, ?_, ?_⟩
  · intro previous history storedCount current t td lu
    simp [check_flights_and_update]
  · intro inp k hk
    obtain ⟨j, rfl⟩ : ∃ j, k = j + 1 := ⟨k - 1, by omega⟩
    unfold summaryFiredAt
    rw [Nat.add_sub_cancel, counterAfter_eq_mod]
    simp only [RunInput.run, check_flights_and_update, Option.getD_some, beq_iff_eq]
    omega
  · intro previous history current t td lu
    exact ⟨rfl, rfl⟩

theorem C4_run_counter_witness :
    summaryFiredAt (fun _ => ⟨[], [], [], 0, today0, "w"⟩) 6 = true :=
  (C4_run_counter.2.2.1 (fun _ => ⟨[], [], [], 0, today0, "w"⟩) 6 (by norm_num)).mpr (by norm_num)

/-- C7: whenever `generate_and_upload_graph` returns `True`, the dashboard
builder's graph branch evaluates `time.time()` although the module-level
name `time` is not bound by `main.py`'s imports, so
`create_final_html_dashboard` raises `NameError` instead of returning a
document: a dashboard with an embedded graph link is unreachable as a
successful result. -/
theorem C7_graph_branch_name_error (h : List HistRow) (df : List Obs) (td : Date) (lu : String)
    (hg : generate_and_upload_graph h = true) :
    "time" ∉ mainModuleImports ∧
    create_final_html_dashboard df (generate_and_upload_graph h) td lu
      = Except.error (PyError.nameError "time") := by
  refine ⟨by decide, ?_⟩
  rw [hg]
  rfl

theorem C7_graph_branch_name_error_witness :
    create_final_html_dashboard [] (generate_and_upload_graph [histRowA, histRowB]) today0 "w"
      = Except.error (PyError.nameError "time") :=
  (C7_graph_branch_name_error [histRowA, histRowB] [] today0 "w" (by decide)).2

/-- Helper: the heat of the 3-stop ramp as a piecewise-linear function. -/
lemma heat_rampColor (t : ℚ) :
    (rampColor t).heat = if t ≤ 1/2 then 188 * t - 94 else 180 * t - 90 := by
  unfold rampColor Color.heat Color.lerp lightgreen yellow orange
  split_ifs <;> ring

/-- Helper: ramp heat is monotone. -/
lemma heat_rampColor_mono {s t : ℚ} (hst : s ≤ t) :
    (rampColor s).heat ≤ (rampColor t).heat := by
  rw [heat_rampColor, heat_rampColor]
  split_ifs <;> linarith

/-- Helper: ramp heat never drops below lightgreen's heat. -/
lemma heat_rampColor_ge {t : ℚ} (ht : 0 ≤ t) : (-94 : ℚ) ≤ (rampColor t).heat := by
  rw [heat_rampColor]
  split_ifs <;> linarith

/-- C9: the heatmap styler is total (every price falls into one of the
three branches below, which cover all of ℚ): prices ≤ 10 get the fixed
cheap color, prices > 75 the fixed expensive color, prices in between the
3-stop ramp at `t = (price - 10) / (75 - 10)`; `styler 75` is the ramp
color at `t = 1`; and heat (red minus green) is monotonically
non-decreasing in price on `[10, 75]`. -/
theorem C9_heatmap_styler :
    (∀ p : ℚ, p ≤ 10 → price_heatmap_styler p = lightgreen) ∧
    (∀ p : ℚ, 75 < p → price_heatmap_styler p = lightcoral) ∧
    (∀ p : ℚ, 10 < p → p ≤ 75 →
      price_heatmap_styler p = rampColor ((p - 10) / 65)) ∧
    price_heatmap_styler 75 = rampColor 1 ∧
    (∀ p q : ℚ, 10 ≤ p → p ≤ q → q ≤ 75 →
      (price_heatmap_styler p).heat ≤ (price_heatmap_styler q).heat) := by
  have hcheap : ∀ p : ℚ, p ≤ 10 → price_heatmap_styler p = lightgreen := by
    intro p hp
    unfold price_heatmap_styler PRICE_HEATMAP_min_price
    rw [if_pos hp]
  have hexp : ∀ p : ℚ, 75 < p → price_heatmap_styler p = lightcoral := by
    intro p hp
    unfold price_heatmap_styler PRICE_HEATMAP_min_price PRICE_HEATMAP_max_price
    rw [if_neg (by linarith), if_pos hp]
  have hramp : ∀ p : ℚ, 10 < p → p ≤ 75 →
      price_heatmap_styler p = rampColor ((p - 10) / 65) := by
    intro p h1 h2
    unfold price_heatmap_styler PRICE_HEATMAP_min_price PRICE_HEATMAP_max_price
    rw [if_neg (by linarith), if_neg (by linarith)]
    norm_num
  refine ⟨hcheap, hexp, hramp, ?_, ?_⟩
  · rw [hramp 75 (by norm_num) le_rfl]
    norm_num
  · intro p q hp hpq hq
    by_cases hq10 : q ≤ 10
    · rw [hcheap p (by linarith), hcheap q hq10]
    · push_neg at hq10
      have htq : (0:ℚ) ≤ (q - 10) / 65 := div_nonneg (by linarith) (by norm_num)
      rw [hramp q hq10 hq]
      by_cases hp10 : p ≤ 10
      · rw [hcheap p hp10]
        have hg : lightgreen.heat = -94 := by norm_num [Color.heat, lightgreen]
        rw [hg]
        exact heat_rampColor_ge htq
      · push_neg at hp10
        rw [hramp p hp10 (by linarith)]
        exact heat_rampColor_mono (by gcongr)

theorem C9_heatmap_styler_witness :
    price_heatmap_styler 5 = lightgreen ∧
    price_heatmap_styler 100 = lightcoral ∧
    price_heatmap_styler 40 = rampColor ((40 - 10) / 65) ∧
    (price_heatmap_styler 20).heat ≤ (price_heatmap_styler 30).heat :=
  ⟨C9_heatmap_styler.1 5 (by norm_num),
   C9_heatmap_styler.2.1 100 (by norm_num),
   C9_heatmap_styler.2.2.1 40 (by norm_num) (by norm_num),
   C9_heatmap_styler.2.2.2.2 20 30 (by norm_num) (by norm_num) (by norm_num)⟩

/-- Helper: membership in `sortedInsert`. -/
lemma mem_sortedInsert (a x : String) (l : List String) :
    a ∈ sortedInsert x l ↔ a = x ∨ a ∈ l := by
  induction l with
  | nil => simp [sortedInsert]
  | cons b bs ih =>
    unfold sortedInsert
    split
    · simp
    · simp [ih]
      tauto

/-- Helper: sorting the group keys does not change which keys occur. -/
lemma mem_sortStrings (a : String) (l : List String) :
    a ∈ sortStrings l ↔ a ∈ l := by
  induction l with
  | nil => simp [sortStrings]
  | cons b bs ih =>
    show a ∈ sortedInsert b (sortStrings bs) ↔ _
    rw [mem_sortedInsert, ih]
    simp

/-- C6 counterexample: two history rows with the same route and the same
flight *calendar date* but different flight *timestamps* (and check times
listed out of order) produce ONE series — the code groups by the label
`From + ' to ' + To + ' on ' + date`, not by (route, flight timestamp),
under which both rows would be singleton series and the output empty —
and that series's points are in input-row order, not sorted by check
time. -/
theorem C6_trend_grouping_counterexample :
    generate_graph_series [histRowA, histRowB]
      = [("DUB to VIE on 2026-12-05", [(10, 100), (5, 120)])] ∧
    histRowA.FlightDateTime ≠ histRowB.FlightDateTime ∧
    ¬ ∀ s ∈ generate_graph_series [histRowA, histRowB], sortedByFst s.2 = true := by
  refine ⟨by decide, by decide, ?_⟩
  intro hall
  have h := hall ("DUB to VIE on 2026-12-05", [(10, 100), (5, 120)]) (by decide)
  revert h
  decide

/-- C6 (amended): the Trend Renderer groups history rows into series by
the label (route, flight *calendar date*), omits every series with fewer
than 2 rows, and emits a qualifying series's (checkTime, price) points in
input-row order: `(l, pts)` is an output series exactly when at least two
rows carry label `l` and `pts` is those rows' points in history order. -/
theorem C6_series_characterization (h : List HistRow) (l : String) (pts : List (Nat × ℚ)) :
    (l, pts) ∈ generate_graph_series h ↔
      2 ≤ (h.filter fun r => flightLabel r = l).length ∧
      pts = (h.filter fun r => flightLabel r = l).map fun r => (r.CheckTime, r.Price) := by
  unfold generate_graph_series
  rw [List.mem_filterMap]
  constructor
  · rintro ⟨a, _, hfa⟩
    by_cases hlen : 1 < (h.filter fun r => flightLabel r = a).length
    · rw [if_pos hlen] at hfa
      obtain ⟨rfl, rfl⟩ := Prod.mk.injEq .. ▸ Option.some.inj hfa
      exact ⟨by omega, rfl⟩
    · rw [if_neg hlen] at hfa
      exact absurd hfa (by simp)
  · rintro ⟨hlen, rfl⟩
    refine ⟨l, ?_, if_pos (by omega)⟩
    have hne : (h.filter fun r => flightLabel r = l) ≠ [] := by
      intro e
      rw [e] at hlen
      simp at hlen
    obtain ⟨r, hr⟩ := List.exists_mem_of_ne_nil _ hne
    have hr' := List.mem_filter.mp hr
    rw [mem_sortStrings, List.mem_dedup]
    exact List.mem_map.mpr ⟨r, hr'.1, of_decide_eq_true hr'.2⟩

/-- C8 counterexample: a two-row history whose two series (distinct route
labels) each have a single row. No series qualifies for the chart, yet
`generate_and_upload_graph` returns `True` — it only checks the *total*
row count — so an empty chart with no series plotted is rendered and
uploaded, and the dashboard does not take the waiting-for-data branch. -/
theorem C8_empty_chart_counterexample :
    generate_and_upload_graph [histRowA, histRowC] = true ∧
    generate_graph_series [histRowA, histRowC] = [] ∧
    ∀ l ∈ ([histRowA, histRowC].map flightLabel).dedup,
      ([histRowA, histRowC].filter fun r => flightLabel r = l).length < 2 := by
  decide

/-- C8 (amended): the insufficient-data placeholder is governed by the
*total* history row count, not by series membership:
`generate_and_upload_graph` reports no graph exactly when the history has
fewer than 2 rows, and in that case (and only then) the dashboard
renders the waiting-for-data message; a history of ≥ 2 rows none of
whose series qualifies still yields `True` and an empty chart. -/
theorem C8_placeholder_iff_short_history (h : List HistRow) :
    (generate_and_upload_graph h = false ↔ h.length < 2) ∧
    (∀ (df : List Obs) (td : Date) (lu : String), h.length < 2 →
      create_final_html_dashboard df (generate_and_upload_graph h) td lu
        = Except.ok (pageOf (calendarHtml df td)
            ("<h2>Price History Graph</h2>" ++
             "<p>Graph will be generated once enough historical data is collected.</p>") lu)) := by
  have hflag : generate_and_upload_graph h = false ↔ h.length < 2 := by
    unfold generate_and_upload_graph
    cases h <;> simp
  refine ⟨hflag, ?_⟩
  intro df td lu hlen
  rw [hflag.mpr hlen]
  rfl

theorem C8_placeholder_iff_short_history_witness :
    create_final_html_dashboard [] (generate_and_upload_graph [histRowA]) today0 "w"
      = Except.ok (pageOf (calendarHtml [] today0)
          ("<h2>Price History Graph</h2>" ++
           "<p>Graph will be generated once enough historical data is collected.</p>") "w") :=
  (C8_placeholder_iff_short_history [histRowA]).2 [] today0 "w" (by norm_num)

/-- Helper: membership in the left merge — one row per current row with no
key match (carrying `none`), one row per (current row, matching previous
row) pair otherwise. -/
lemma mem_merge_left (current previous : List Obs) (r : CompRow) :
    r ∈ merge_left current previous ↔
      ∃ c ∈ current,
        ((∀ p ∈ previous, mergeKey p ≠ mergeKey c) ∧ r = ⟨c, none⟩) ∨
        (∃ p ∈ previous, mergeKey p = mergeKey c ∧ r = ⟨c, some p.Price⟩) := by
  unfold merge_left
  rw [List.mem_flatMap]
  constructor
  · rintro ⟨c, hc, hr⟩
    refine ⟨c, hc, ?_⟩
    by_cases he : (previous.filter fun p => mergeKey p = mergeKey c).isEmpty
    · rw [if_pos he] at hr
      left
      have hnil : previous.filter (fun p => mergeKey p = mergeKey c) = [] :=
        List.isEmpty_iff.mp he
      refine ⟨?_, List.mem_singleton.mp hr⟩
      intro p hp hkey
      have : p ∈ previous.filter (fun p => mergeKey p = mergeKey c) :=
        List.mem_filter.mpr ⟨hp, decide_eq_true hkey⟩
      rw [hnil] at this
      exact absurd this (List.not_mem_nil p)
    · rw [if_neg he] at hr
      right
      obtain ⟨p, hp, hpr⟩ := List.mem_map.mp hr
      have hp' := List.mem_filter.mp hp
      exact ⟨p, hp'.1, of_decide_eq_true hp'.2, hpr.symm⟩
  · rintro ⟨c, hc, ⟨hall, rfl⟩ | ⟨p, hp, hkey, rfl⟩⟩
    · refine ⟨c, hc, ?_⟩
      have hnil : previous.filter (fun p => mergeKey p = mergeKey c) = [] := by
        rw [List.filter_eq_nil_iff]
        intro p hp
        simpa using hall p hp
      rw [if_pos (List.isEmpty_iff.mpr hnil)]
      exact List.mem_singleton.mpr rfl
    · refine ⟨c, hc, ?_⟩
      have hpf : p ∈ previous.filter (fun p => mergeKey p = mergeKey c) :=
        List.mem_filter.mpr ⟨hp, decide_eq_true hkey⟩
      rw [if_neg (by simpa using List.ne_nil_of_mem hpf)]
      exact List.mem_map.mpr ⟨p, hpf, rfl⟩

/-- C1: the change set is a left join of current against previous on the
(flight calendar date, origin, destination) key: every current row
appears in the comparison; every change-set row comes from current (a
previous row with no current match never appears); and a current row
appears in the change set iff no previous row shares its key (new) or a
matching previous row's price differs from the current price under exact
decimal inequality. -/
theorem C1_change_set_left_join (current previous : List Obs) :
    (∀ c ∈ current, ∃ r ∈ merge_left current previous, r.obs = c) ∧
    (∀ r ∈ changedRows (merge_left current previous), r.obs ∈ current) ∧
    (∀ c ∈ current,
      ((∃ r ∈ changedRows (merge_left current previous), r.obs = c) ↔
        (∀ p ∈ previous, mergeKey p ≠ mergeKey c) ∨
        ∃ p ∈ previous, mergeKey p = mergeKey c ∧ p.Price ≠ c.Price)) := by
  refine ⟨?_, ?_, ?_⟩
  · intro c hc
    by_cases hcase : ∀ p ∈ previous, mergeKey p ≠ mergeKey c
    · exact ⟨⟨c, none⟩, (mem_merge_left _ _ _).mpr ⟨c, hc, Or.inl ⟨hcase, rfl⟩⟩, rfl⟩
    · push_neg at hcase
      obtain ⟨p, hp, hkey⟩ := hcase
      exact ⟨⟨c, some p.Price⟩,
        (mem_merge_left _ _ _).mpr ⟨c, hc, Or.inr ⟨p, hp, hkey, rfl⟩⟩, rfl⟩
  · intro r hr
    obtain ⟨c, hc, hcase⟩ := (mem_merge_left _ _ _).mp (List.mem_filter.mp hr).1
    rcases hcase with ⟨-, rfl⟩ | ⟨p, -, -, rfl⟩ <;> exact hc
  · intro c hc
    constructor
    · rintro ⟨r, hr, hrobs⟩
      have hpred := (List.mem_filter.mp hr).2
      obtain ⟨c', hc', hcase⟩ := (mem_merge_left _ _ _).mp (List.mem_filter.mp hr).1
      rcases hcase with ⟨hall, rfl⟩ | ⟨p, hp, hkey, rfl⟩
      · obtain rfl : c' = c := hrobs
        exact Or.inl hall
      · obtain rfl : c' = c := hrobs
        refine Or.inr ⟨p, hp, hkey, ?_⟩
        simpa using hpred
    · rintro (hall | ⟨p, hp, hkey, hne⟩)
      · exact ⟨⟨c, none⟩, List.mem_filter.mpr
          ⟨(mem_merge_left _ _ _).mpr ⟨c, hc, Or.inl ⟨hall, rfl⟩⟩, by simp⟩, rfl⟩
      · exact ⟨⟨c, some p.Price⟩, List.mem_filter.mpr
          ⟨(mem_merge_left _ _ _).mpr ⟨c, hc, Or.inr ⟨p, hp, hkey, rfl⟩⟩, by simp [hne]⟩, rfl⟩

theorem C1_change_set_left_join_witness :
    ∃ r ∈ changedRows (merge_left [obsNov1] [prevNov1]), r.obs = obsNov1 :=
  ((C1_change_set_left_join [obsNov1] [prevNov1]).2.2 obsNov1 (by decide)).mpr
    (Or.inr ⟨prevNov1, by decide, by decide, by decide⟩)

/-- C5 counterexample: with the run date Monday 2026-10-12, a flight on
Sunday 2026-11-01 is listed in TWO cells of the 12-month calendar — the
overflow cell of the October block's last week and the proper cell of the
November block — because the cell-filling loop looks every grid date up
in `flights_by_date` without checking that it belongs to the block's own
month; the claim asserts exactly one cell and no overflow listing. -/
theorem C5_overflow_duplication_counterexample :
    (((calendarCells today0 [obsNov1]).filter fun c => obsNov1 ∈ c.2.2.2).map
        fun c => (c.1, c.2.1)) = [(2026, 10), (2026, 11)] ∧
    ¬ ((calendarCells today0 [obsNov1]).filter fun c => obsNov1 ∈ c.2.2.2).length = 1 := by
  constructor <;> decide

/-- C5 (amended): an observation on date D is listed in precisely the
grid cells whose date is D — the cell of D inside D's own month block
and, when an adjacent in-window month's grid shows D as an overflow day,
that overflow cell as well; it is never listed in a cell of any other
date. -/
theorem C5_cell_lists_iff_date_matches (today : Date) (df : List Obs) (o : Obs)
    (ho : o ∈ df) :
    ∀ c ∈ calendarCells today df, (o ∈ c.2.2.2 ↔ c.2.2.1 = o.DateTime.date) := by
  intro c hc
  unfold calendarCells at hc
  rw [List.mem_flatMap] at hc
  obtain ⟨ym, hym, hc⟩ := hc
  rw [List.mem_flatMap] at hc
  obtain ⟨wk, hwk, hc⟩ := hc
  obtain ⟨d, hd, rfl⟩ := List.mem_map.mp hc
  constructor
  · intro hmem
    exact (of_decide_eq_true (List.mem_filter.mp hmem).2).symm
  · intro hdate
    exact List.mem_filter.mpr ⟨ho, decide_eq_true hdate.symm⟩

theorem C5_cell_lists_iff_date_matches_witness :
    obsNov1 ∈ ((2026, 11, (⟨2026, 11, 1⟩ : Date),
        [obsNov1]) : Nat × Nat × Date × List Obs).2.2.2 ↔
      ((2026, 11, (⟨2026, 11, 1⟩ : Date),
        [obsNov1]) : Nat × Nat × Date × List Obs).2.2.1 = obsNov1.DateTime.date :=
  C5_cell_lists_iff_date_matches today0 [obsNov1] obsNov1 (by decide) _ (by decide)

/-- Helper: two assembled pages with the same calendar and graph parts are
equal exactly when their last-updated footer texts are equal. -/
lemma pageOf_eq_iff (cal graph lu lu' : String) :
    pageOf cal graph lu = pageOf cal graph lu' ↔ lu = lu' := by
  constructor
  · intro h
    have hd := congrArg String.data h
    simp only [pageOf, String.data_append, List.append_assoc] at hd
    have h1 := List.append_cancel_left hd
    have h2 := List.append_cancel_left h1
    have h3 := List.append_cancel_left h2
    have h4 := List.append_cancel_left h3
    have h5 := List.append_cancel_left h4
    exact String.ext (List.append_cancel_right h5)
  · rintro rfl
    rfl

/-- C10 counterexample: two runs over identical (here empty) snapshot
data whose footer clock reads differ by an hour produce dashboards that
are NOT byte-identical — the page embeds
`datetime.now(ZoneInfo('Europe/Dublin'))` in its footer, so re-renders of
unchanged data differ. -/
theorem C10_rerender_counterexample :
    create_final_html_dashboard [] false today0 "2026-10-12 01:00:00 PM IST"
      ≠ create_final_html_dashboard [] false today0 "2026-10-12 02:00:00 PM IST" := by
  intro h
  have heq : ("2026-10-12 01:00:00 PM IST" : String) = "2026-10-12 02:00:00 PM IST" := by
    have h' : Except.ok (ε := PyError) (pageOf (calendarHtml [] today0)
        ("<h2>Price History Graph</h2>" ++
         "<p>Graph will be generated once enough historical data is collected.</p>")
        "2026-10-12 01:00:00 PM IST")
        = Except.ok (pageOf (calendarHtml [] today0)
        ("<h2>Price History Graph</h2>" ++
         "<p>Graph will be generated once enough historical data is collected.</p>")
        "2026-10-12 02:00:00 PM IST") := h
    exact (pageOf_eq_iff _ _ _ _).mp (Except.ok.inj h')
  exact absurd heq (by decide)

/-- C10 (amended): rendering is a pure function of the snapshot data and
the two clock reads — for two runs over identical unchanged snapshot data
on the same calendar day (and no graph), within each date the
observations render in the same stable input order, and the produced
documents are byte-identical if and only if the rendered last-updated
footer texts coincide (the footer is the page's only dependence on the
render instant). -/
theorem C10_byte_identical_iff_same_footer (df : List Obs) (td : Date) (lu lu' : String) :
    create_final_html_dashboard df false td lu = create_final_html_dashboard df false td lu'
      ↔ lu = lu' := by
  show Except.ok (pageOf (calendarHtml df td) _ lu)
      = Except.ok (pageOf (calendarHtml df td) _ lu') ↔ _
  rw [Except.ok.injEq]
  exact pageOf_eq_iff _ _ _ _
